import Mathlib

/-!
Shallow embedding of the configuration-resolution core of the tcex
repository (files `tcex/inputs/inputs.py`, `tcex/bin/test.py`,
`tcex/testing/test_case.py`), together with theorems settling the frozen
claims about it.

Python values that flow through the configuration engine are modelled by
the inductive type `Value` (strings, booleans, lists, dicts, None).
Python dicts and argparse namespaces are modelled as ordered association
lists, matching the insertion-order semantics of Python dicts.  Fallible
Python code (code that can raise) is modelled with `Except String`, the
error string standing for the exception.  All definitions are
executable, structurally recursive, and translated from the source, so
that concrete runs reduce by `rfl` and `decide`.
-/

/-- Model of a Python runtime value as it appears in the configuration
engine: a string, a boolean, a list, a dict (ordered association list)
or None. -/
inductive Value where
  | str (s : String)
  | bool (b : Bool)
  | list (xs : List Value)
  | dict (d : List (String × Value))
  | null

/-- Python truthiness (`if value:`) for the modelled values: empty
strings, empty containers, `False` and `None` are falsy. -/
def pyTruthy : Value → Bool
  | .str s => !s.isEmpty
  | .bool b => b
  | .list xs => !xs.isEmpty
  | .dict d => !d.isEmpty
  | .null => false

/-- Python `a or b` for the strings used in error messages: the first
operand wins unless it is empty (falsy). -/
def pyOr (a b : String) : String := if a.isEmpty then b else a

/-- Python `str.lower()` (character-wise; the engine only lowers ASCII
schema type names such as MultiChoice or Boolean). -/
def pyLower (s : String) : String := String.mk (s.data.map Char.toLower)

/-- Modelled from the spec: `tcex.utils.to_bool` is not under src/ (only
its callers in `inputs.py` are).  Spec section 4.2: string forms
true/false, case-insensitive, convert to boolean, any non-matching
string coerces to false, and boolean-to-boolean is a no-op. -/
def to_bool : Value → Bool
  | .bool b => b
  | .str s => pyLower s == "true"
  | _ => false

/-- Fuel-driven worker for Python `str.split(sep)`: scans the character
list, emitting a chunk at each non-overlapping occurrence of the
(non-empty) separator.  Fuel is the length of the subject, so it never
runs out. -/
def pySplitFuel (delim : List Char) : Nat → List Char → List Char → List (List Char)
  | 0, s, acc => [acc.reverse ++ s]
  | fuel + 1, s, acc =>
    match s with
    | [] => [acc.reverse]
    | c :: rest =>
      if delim.isPrefixOf s then acc.reverse :: pySplitFuel delim fuel (s.drop delim.length) []
      else pySplitFuel delim fuel rest (c :: acc)

/-- Python `s.split(delim)` for a non-empty delimiter (the engine passes
the configured list delimiter, e.g. a comma).  Python raises ValueError
on an empty separator; that unexercised edge is modelled as returning
the subject whole. -/
def pyStrSplit (s delim : String) : List String :=
  match delim.data with
  | [] => [s]
  | d => (pySplitFuel d (s.data.length + 1) s.data []).map String.mk

/-- Python attribute-access failure message for `value.split`, raised
when the receiver is not a string. -/
def attrErrNoSplit (tyname : String) : String :=
  "AttributeError: " ++ tyname ++ " object has no attribute split"

/-- Python `value.split(delim)` on a runtime value: defined for strings,
an AttributeError for every other type (inputs.py line 408 calls it on
whatever non-dict value the parameter carries). -/
def pyValueSplit (delim : String) : Value → Except String Value
  | .str s => .ok (.list ((pyStrSplit s delim).map Value.str))
  | .list _ => .error (attrErrNoSplit "list")
  | .dict _ => .error (attrErrNoSplit "dict")
  | .bool _ => .error (attrErrNoSplit "bool")
  | .null => .error (attrErrNoSplit "NoneType")

/-- Python `value[key]` on a runtime value: a KeyError on a dict without
the key, a TypeError on non-dicts (used by `r.json()[inputs]` in
`Inputs._get_secure_params`). -/
def pyGetItem (v : Value) (k : String) : Except String Value :=
  match v with
  | .dict d =>
    match d.lookup k with
    | some x => .ok x
    | none => .error ("KeyError: " ++ k)
  | _ => .error "TypeError: value is not subscriptable by string"

/-- Argparse namespaces and Python dicts holding configuration are both
modelled as ordered association lists from key to value. -/
abbrev Namespace := List (String × Value)

/-- Setting one key in a namespace/dict: overwrite in place when the key
exists (keeping its position, as Python dicts do), append otherwise. -/
def nsSet (ns : Namespace) (k : String) (v : Value) : Namespace :=
  if ns.any (fun kv => kv.1 == k) then
    ns.map (fun kv => if kv.1 == k then (k, v) else kv)
  else ns ++ [(k, v)]

/-- Python `dict.update` / `Namespace.__dict__.update`: fold `nsSet`
over the incoming pairs in order. -/
def nsUpdate (ns : Namespace) (m : List (String × Value)) : Namespace :=
  m.foldl (fun n kv => nsSet n kv.1 kv.2) ns

/-- Reserved ThreatConnect argument names that are boolean-typed
(`Inputs.tc_bool_args`, inputs.py lines 300-314). -/
def tc_bool_args : List String :=
  [ "apply_proxy_external", "apply_proxy_ext", "apply_proxy_tc", "batch_halt_on_error",
    "tc_aot_enabled", "tc_log_to_api", "tc_proxy_external", "tc_proxy_tc",
    "tc_secure_params", "tc_verify" ]

/-- Reserved ThreatConnect argument names that are never subject to
playbook-variable resolution (`Inputs.tc_reserved_args`, inputs.py
lines 316-353). -/
def tc_reserved_args : List String :=
  [ "tc_token", "tc_token_expires", "api_access_id", "api_secret_key", "batch_action",
    "batch_chunk", "batch_halt_on_error", "batch_poll_interval", "batch_interval_max",
    "batch_write_type", "tc_playbook_db_type", "tc_playbook_db_context", "tc_playbook_db_path",
    "tc_playbook_db_port", "tc_playbook_out_variables", "api_default_org", "tc_api_path",
    "tc_in_path", "tc_log_file", "tc_log_path", "tc_out_path", "tc_secure_params",
    "tc_temp_path", "tc_user_id", "tc_proxy_host", "tc_proxy_port", "tc_proxy_username",
    "tc_proxy_password", "tc_proxy_external", "tc_proxy_tc", "tc_log_to_api", "tc_log_level",
    "logging" ]

/-- One entry of the externally supplied parameter schema
(`install.json`): the type name and the allowMultiple flag, with the
defaults used by `param_data.get` in `Inputs.update_params` (empty type
string, allowMultiple false). -/
structure ParamData where
  ptype : String
  allowMultiple : Value

/-- The slice of the external `tcex.ij` collaborator that
`Inputs.update_params` reads: the name-keyed parameter schema and the
configured list delimiter. -/
structure InstallJson where
  params_dict : List (String × ParamData)
  list_delimiter : String

/-- Per-key type coercion: the loop body of `Inputs.update_params`
(inputs.py lines 397-417).  MultiChoice or allowMultiple parameters are
split on the list delimiter unless the value is a dict (the guard on
line 407 is `isinstance(value, dict)`); Boolean parameters and reserved
boolean args go through `to_bool`; everything else passes unchanged. -/
def Inputs.update_params_coerce (ij : InstallJson) (arg : String) (value : Value) :
    Except String Value :=
  let param_data := (ij.params_dict.lookup arg).getD ⟨"", Value.bool false⟩
  let param_type := pyLower param_data.ptype
  let param_allow_multiple := to_bool param_data.allowMultiple
  if param_type == "multichoice" || param_allow_multiple then
    if !(match value with | .dict _ => true | _ => false) then
      pyValueSplit ij.list_delimiter value
    else .ok value
  else if param_type == "boolean" then .ok (.bool (to_bool value))
  else if tc_bool_args.contains arg then .ok (.bool (to_bool value))
  else .ok value

/-- Whole-map coercion `Inputs.update_params` (inputs.py lines 390-420):
iterate the incoming params dict in order and coerce each value; a
non-dict argument fails at `params.items()`. -/
def Inputs.update_params (ij : InstallJson) (params : Value) :
    Except String (List (String × Value)) :=
  match params with
  | .dict items =>
    items.mapM (fun kv => (Inputs.update_params_coerce ij kv.1 kv.2).map (fun v => (kv.1, v)))
  | _ => .error "AttributeError: object has no attribute items"

/-- Configuration merge `Inputs.config` (inputs.py lines 192-232).  With
preserve set, every key whose exact two-dash flag form appears as an
element of `sys.argv` is deleted from the caller-supplied dict before
the namespace is updated.  The first component is the updated namespace,
the second the caller-supplied dict after the in-place deletions. -/
def Inputs.config (argv : List String) (ns : Namespace)
    (config_data : List (String × Value)) (preserve : Bool) :
    Namespace × List (String × Value) :=
  let cd :=
    if preserve then config_data.filter (fun kv => !(argv.contains ("--" ++ kv.1)))
    else config_data
  (nsUpdate ns cd, cd)

/-- A sequence of later merges through `Inputs.config` with preserve set,
as performed by the AOT and secure-params loaders. -/
def Inputs.configSeq (argv : List String) (ns : Namespace)
    (cds : List (List (String × Value))) : Namespace :=
  cds.foldl (fun n cd => (Inputs.config argv n cd true).1) ns

/-- Config-file loader `Inputs.config_file` (inputs.py lines 234-246).
The filesystem and the external `json` module are parameters: `fs` maps
a filename to its contents when the file exists, `parseJson` returns the
decoded value or nothing for malformed input.  A missing filename or
missing file yields an empty dict; `json.load` on a present file is not
guarded, so a malformed file propagates the decode error. -/
def Inputs.config_file (fs : String → Option String) (parseJson : String → Option Value)
    (filename : Option String) : Except String Value :=
  match filename with
  | none => .ok (.dict [])
  | some f =>
    match fs f with
    | some contents =>
      match parseJson contents with
      | some data => .ok data
      | none => .error "json.decoder.JSONDecodeError: Expecting value"
    | none => .ok (.dict [])

/-- The slice of an HTTP response that `Inputs._get_secure_params`
reads: the success flag, body text, reason phrase, and the decoded JSON
body (none when the body is not valid JSON, making `r.json()` raise). -/
structure Response where
  ok : Bool
  text : String
  reason : String
  body : Option Value

/-- Error message raised by `Inputs._get_secure_params` for a bad status
or a body without the expected inputs entry (inputs.py lines 105-114). -/
def secureParamsErr (r : Response) : String :=
  "Error retrieving secure params from API (" ++ pyOr r.text r.reason ++ ")."

/-- Remote-service loader `Inputs._get_secure_params` (inputs.py lines
78-116): a non-ok response raises; otherwise the body is decoded and
indexed with the inputs key, any failure of which raises the same
message; on success the inputs value is returned. -/
def Inputs._get_secure_params (r : Response) : Except String Value :=
  if !r.ok then .error (secureParamsErr r)
  else
    match r.body with
    | none => .error (secureParamsErr r)
    | some j =>
      match pyGetItem j "inputs" with
      | .ok v => .ok v
      | .error _ => .error (secureParamsErr r)

/-- Resolution pass `Inputs.resolved_args` (inputs.py lines 268-292):
walk the raw namespace in order and copy every binding into a fresh
namespace, passing string values of non-reserved keys through the
external playbook read operation. -/
def Inputs.resolved_args (read : String → Value) (ns : Namespace) : Namespace :=
  ns.map (fun kv =>
    if tc_reserved_args.contains kv.1 then kv
    else
      match kv.2 with
      | .str s => (kv.1, read s)
      | v => (kv.1, v))

/-- Observable steps of the `Inputs.__init__` sequence (inputs.py lines
20-76), in particular every call of `register_token` (a registration
attempt; the token is forwarded when the namespace carries a non-null
tc_token) and every execution of the two external loaders. -/
inductive Event where
  | configFileLoad
  | cliParse
  | resultsTc
  | registerToken
  | aotFetch
  | secureFetch
  | updateLogging

/-- External collaborators and inputs of one `Inputs.__init__` run: the
process argument list, the config dict passed by the caller, the
filesystem and JSON decoder behind `config_file`, the optional config
filename, the argparse `parse_known_args` call, the parsed results.tc
assignments, the AOT payload a blocking pop would return, the response
of the secure-params endpoint, and the parameter schema. -/
structure InitEnv where
  argv : List String
  config0 : List (String × Value)
  fs : String → Option String
  parseJson : String → Option Value
  configFilename : Option String
  cliParse : Namespace → Namespace × List String
  resultsArgs : List (String × Value)
  aotPayload : Value
  secureResponse : Response
  ij : InstallJson

/-- Python `dict.update(other)` requires a mapping; the decoded config
file is merged into the caller-supplied config dict this way
(inputs.py line 42). -/
def pyAsDict (v : Value) : Except String (List (String × Value)) :=
  match v with
  | .dict d => .ok d
  | _ => .error "TypeError: config update requires a mapping"

/-- Steps of `Inputs.__init__` up to and including `_results_tc_args`
(inputs.py lines 41-60): load the config file, merge it into the config
dict, seed the namespace from the merged config, run the CLI parse, and
apply the results.tc assignments. -/
def Inputs.localPhase (env : InitEnv) : Except String Namespace :=
  match Inputs.config_file env.fs env.parseJson env.configFilename with
  | .error e => .error e
  | .ok fileData =>
    match pyAsDict fileData with
    | .error e => .error e
    | .ok d =>
      let config := nsUpdate env.config0 d
      let ns := (env.cliParse config).1
      .ok (nsUpdate ns env.resultsArgs)

/-- AOT loader `Inputs._load_aot_params` (inputs.py lines 118-124): when
the tc_aot_enabled arg is truthy, pop the blocking queue, coerce the
payload with `update_params`, and merge it through `config` (which ends
with a further `register_token` attempt). -/
def Inputs.aotPhase (env : InitEnv) (ns : Namespace) :
    Except String Namespace × List Event :=
  match ns.lookup "tc_aot_enabled" with
  | none => (.error "AttributeError: tc_aot_enabled", [])
  | some flag =>
    if pyTruthy flag then
      match Inputs.update_params env.ij env.aotPayload with
      | .error e => (.error e, [Event.aotFetch])
      | .ok updated =>
        (.ok (Inputs.config env.argv ns updated true).1,
          [Event.aotFetch, Event.registerToken])
    else (.ok ns, [])

/-- Secure-params loader `Inputs._load_secure_params` (inputs.py lines
126-132): when the tc_secure_params arg is truthy, fetch from the API
via `_get_secure_params`, coerce with `update_params`, and merge through
`config` (which ends with a further `register_token` attempt). -/
def Inputs.securePhase (env : InitEnv) (ns : Namespace) :
    Except String Namespace × List Event :=
  match ns.lookup "tc_secure_params" with
  | none => (.error "AttributeError: tc_secure_params", [])
  | some flag =>
    if pyTruthy flag then
      match Inputs._get_secure_params env.secureResponse with
      | .error e => (.error e, [Event.secureFetch])
      | .ok params =>
        match Inputs.update_params env.ij params with
        | .error e => (.error e, [Event.secureFetch])
        | .ok updated =>
          (.ok (Inputs.config env.argv ns updated true).1,
            [Event.secureFetch, Event.registerToken])
    else (.ok ns, [])

/-- Whole `Inputs.__init__` sequence (inputs.py lines 20-76): the local
phase, the unconditional `register_token` attempt of line 63, then the
AOT loader, then the secure-params loader, then `update_logging`.  The
result is the final namespace (or the propagated fatal error) paired
with the trace of observable events in execution order. -/
def Inputs.initRun (env : InitEnv) : Except String Namespace × List Event :=
  match Inputs.localPhase env with
  | .error e => (.error e, [Event.configFileLoad])
  | .ok ns1 =>
    let ev0 := [Event.configFileLoad, Event.cliParse, Event.resultsTc, Event.registerToken]
    match Inputs.aotPhase env ns1 with
    | (.error e, ev) => (.error e, ev0 ++ ev)
    | (.ok ns2, ev) =>
      match Inputs.securePhase env ns2 with
      | (.error e, ev2) => (.error e, ev0 ++ ev ++ ev2)
      | (.ok ns3, ev2) => (.ok ns3, ev0 ++ ev ++ ev2 ++ [Event.updateLogging])

/-- Character class `[A-Za-z]` of the namespace-tag group in
`ValidationTemplates._variable_pattern` (test.py line 201). -/
def isVarAlpha (c : Char) : Bool := (('A' ≤ c && c ≤ 'Z') || ('a' ≤ c && c ≤ 'z'))

/-- Character class of the digit group (test.py line 202; ASCII digits). -/
def isVarDigit (c : Char) : Bool := ('0' ≤ c && c ≤ '9')

/-- Character class of the dotted/bracketed variable-name group
(test.py line 203). -/
def isVarNameChar (c : Char) : Bool :=
  isVarAlpha c || isVarDigit c || c == '_' || c == '.' || c == '-' || c == '[' || c == ']'

/-- Character class of the custom-type group (test.py line 209). -/
def isCustomTypeChar (c : Char) : Bool :=
  isVarAlpha c || isVarDigit c || c == '_' || c == '-'

/-- The fixed variable-type vocabulary of the grammar, in the order of
the regex alternation (test.py lines 204-206). -/
def fixedVariableTypes : List String :=
  [ "StringArray", "BinaryArray", "KeyValueArray", "TCEntityArray", "TCEnhancedEntityArray",
    "String", "Binary", "KeyValue", "TCEntity", "TCEnhancedEntity" ]

/-- The negative lookaheads guarding the custom-type alternative
(test.py lines 207-208): a custom type must not begin with a reserved
type keyword. -/
def customTypeExclusions : List String :=
  [ "String", "Binary", "KeyValue", "TCEntity", "TCEnhancedEntity" ]

/-- Parsed form of a playbook variable
(namespace tag, numeric id, dotted name, type). -/
structure VariableToken where
  nsTag : String
  appId : String
  dottedName : String
  vtype : String

/-- Expect a single literal character at the head of the input. -/
def expectChar (c : Char) : List Char → Option (List Char)
  | x :: r => if x == c then some r else none
  | [] => none

/-- Expect a non-empty maximal run of characters of a class, as a
greedy `+`-quantified character class does when the following literal
is outside the class. -/
def parseRun (p : Char → Bool) (s : List Char) : Option (List Char × List Char) :=
  match s.span p with
  | (tk, rest) => if tk.isEmpty then none else some (tk, rest)

/-- The type suffix: the whole remaining input must be one of the fixed
vocabulary entries, or a non-empty run of custom-type characters not
beginning with a reserved keyword (test.py lines 204-209 under the
trailing anchor of `_variable_match`). -/
def parseVariableType (r : List Char) : Option String :=
  let ty := String.mk r
  if fixedVariableTypes.contains ty then some ty
  else if !r.isEmpty && r.all isCustomTypeChar
      && customTypeExclusions.all (fun p => !(p.data.isPrefixOf r)) then some ty
  else none

/-- Full anchored match of `_variable_match` (test.py lines 176 and
198-210): a hash, an alphabetic namespace tag, a colon, a numeric id, a
colon, a dotted/bracketed name, a bang, and a type suffix reaching the
end of the string.  Each greedy group is followed by a literal outside
its class, so maximal runs are exact. -/
def parseVariable (s : List Char) : Option VariableToken :=
  (expectChar '#' s).bind fun r0 =>
  (parseRun isVarAlpha r0).bind fun g1 =>
  match g1 with
  | (nsChars, r1) =>
    (expectChar ':' r1).bind fun r2 =>
    (parseRun isVarDigit r2).bind fun g2 =>
    match g2 with
    | (idChars, r3) =>
      (expectChar ':' r3).bind fun r4 =>
      (parseRun isVarNameChar r4).bind fun g3 =>
      match g3 with
      | (nameChars, r5) =>
        (expectChar '!' r5).bind fun r6 =>
        (parseVariableType r6).bind fun ty =>
        some ⟨String.mk nsChars, String.mk idChars, String.mk nameChars, ty⟩

/-- Python whitespace characters removed by `str.strip()`. -/
def isPyWs (c : Char) : Bool :=
  c == ' ' || c == '\t' || c == '\n' || c == '\r' || c == '\x0b' || c == '\x0c'

/-- Python `str.strip()` over the character list: drop leading and
trailing whitespace. -/
def stripChars (l : List Char) : List Char :=
  ((l.dropWhile isPyWs).reverse.dropWhile isPyWs).reverse

/-- Python `str.strip()` (test.py line 190). -/
def pyStrip (s : String) : String := String.mk (stripChars s.data)

/-- Method name derived from a parsed variable: the dotted name with
dots replaced by underscores, lower-cased, an underscore, and the
lower-cased type (test.py lines 193-195). -/
def variableMethodName (tok : VariableToken) : String :=
  String.mk ((tok.dottedName.data.map (fun c => if c == '.' then '_' else c)).map Char.toLower)
    ++ "_" ++ String.mk (tok.vtype.data.map Char.toLower)

/-- Variable-to-method-name conversion
`ValidationTemplates._method_name` (test.py lines 179-196): a None
input stays None; otherwise the input is stripped of surrounding
whitespace, matched against the full anchored grammar, and on a match
the method name is built from the name and type groups; on a non-match
the result is None. -/
def ValidationTemplates._method_name (var : Option String) : Option String :=
  match var with
  | none => none
  | some v =>
    match parseVariable (pyStrip v).data with
    | some tok => some (variableMethodName tok)
    | none => none

/-- Drop an expected literal prefix from a character list, returning the
remainder on success. -/
def dropPrefixChars : List Char → List Char → Option (List Char)
  | [], s => some s
  | _ :: _, [] => none
  | p :: ps, c :: cs => if c == p then dropPrefixChars ps cs else none

/-- Python `re.match` of an anchored pattern made of a literal prefix
followed by a dot-star capture group and the end anchor (the env and
envs patterns of test_case.py lines 298-299): dot does not cross
newlines, and the end anchor also matches just before one trailing
newline, so the capture is the remainder after the prefix provided the
remainder is newline-free, or the remainder without its final newline
when that is its only newline. -/
def pyReMatchTailCapture (p : List Char) (value : List Char) : Option (List Char) :=
  match dropPrefixChars p value with
  | none => none
  | some rest =>
    if rest.contains '\n' then
      if rest.getLast? == some '\n' && !(rest.dropLast.contains '\n') then some rest.dropLast
      else none
    else some rest

/-- Environment indirection `TestCase.resolve_env_args` (test_case.py
lines 288-308): a value matching the env pattern, or else the envs
pattern, is replaced by the named environment variable when set, with
the original value as the default; anything else is returned
unchanged.  The environment is the `envGet` parameter. -/
def TestCase.resolve_env_args (envGet : String → Option String) (value : String) : String :=
  match pyReMatchTailCapture "$env.".data value.data with
  | some key => (envGet (String.mk key)).getD value
  | none =>
    match pyReMatchTailCapture "$envs.".data value.data with
    | some key => (envGet (String.mk key)).getD value
    | none => value

/-- Claim-side notion from C1: a key counts as present in the original
CLI invocation argument list whether the flag was supplied as the
two-token form (an exact two-dash element) or as the single-token
equals form (a two-dash element carrying the value after an equals
sign). -/
def specKeySuppliedOnCli (argv : List String) (k : String) : Bool :=
  argv.any (fun a => a == "--" ++ k || ("--" ++ k ++ "=").data.isPrefixOf a.data)

/-- The multichoice-or-allowMultiple test of `Inputs.update_params`
(inputs.py lines 401-405), factored out for the statements about
coercion. -/
def isMultiChoiceParam (ij : InstallJson) (arg : String) : Bool :=
  let param_data := (ij.params_dict.lookup arg).getD ⟨"", Value.bool false⟩
  pyLower param_data.ptype == "multichoice" || to_bool param_data.allowMultiple

/-- A decoded response body on which `r.json()` followed by indexing
with the inputs key raises (the shape check of
`Inputs._get_secure_params`, inputs.py lines 110-114): no JSON at all,
or a value without an inputs entry. -/
def secureShapeBad (b : Option Value) : Bool :=
  match b with
  | none => true
  | some j =>
    match pyGetItem j "inputs" with
    | .ok _ => false
    | .error _ => true

/-- Schema fixture: one MultiChoice parameter named tags, comma
delimiter. -/
def ijMulti : InstallJson := ⟨[("tags", ⟨"MultiChoice", Value.bool false⟩)], ","⟩

/-- Schema fixture: one Boolean parameter named debug_mode, comma
delimiter. -/
def ijBool : InstallJson := ⟨[("debug_mode", ⟨"Boolean", Value.bool false⟩)], ","⟩

/-- Filesystem fixture: exactly one file, holding text that is not
JSON. -/
def fsBad : String → Option String :=
  fun f => if f == "app_config.json" then some "not json" else none

/-- JSON-decoder fixture rejecting every input (the decoder is only
applied to the malformed fixture file). -/
def parseJsonNone : String → Option Value := fun _ => none

/-- Environment fixture: exactly one variable, API_KEY set to xyz. -/
def envGetW : String → Option String :=
  fun k => if k == "API_KEY" then some "xyz" else none

/-- Namespace produced by the local phase of the two init fixtures
below: AOT disabled, secure params enabled. -/
def nsFixture : Namespace :=
  [("tc_aot_enabled", Value.bool false), ("tc_secure_params", Value.bool true)]

/-- Init fixture with a successful secure-params response. -/
def envOkFixture : InitEnv :=
  ⟨[], nsFixture, fun _ => none, fun _ => none, none, fun ns => (ns, []), [],
    Value.dict [], ⟨true, "", "", some (Value.dict [("inputs", Value.dict [])])⟩, ⟨[], ","⟩⟩

/-- Init fixture whose secure-params response is an HTTP 500 with a
plain-text body. -/
def envBadFixture : InitEnv :=
  ⟨[], nsFixture, fun _ => none, fun _ => none, none, fun ns => (ns, []), [],
    Value.dict [], ⟨false, "Internal Server Error", "", none⟩, ⟨[], ","⟩⟩

theorem lookup_map_overwrite_ne (a : String) (v : Value) (k : String) (h : k ≠ a) :
    ∀ ns : Namespace,
      (ns.map (fun kv => if kv.1 == a then (a, v) else kv)).lookup k = ns.lookup k := by
  intro ns
  induction ns with
  | nil => rfl
  | cons hd tl ih =>
    obtain ⟨k₁, v₁⟩ := hd
    by_cases hhd : k₁ = a
    · subst hhd
      simp only [List.map_cons, beq_self_eq_true, if_true, List.lookup_cons,
        beq_false_of_ne h, ih]
    · simp only [List.map_cons, beq_false_of_ne hhd, Bool.false_eq_true, if_false,
        List.lookup_cons, ih]

theorem lookup_append_singleton_ne (a : String) (v : Value) (k : String) (h : k ≠ a) :
    ∀ ns : Namespace, (ns ++ [(a, v)]).lookup k = ns.lookup k := by
  intro ns
  induction ns with
  | nil => simp [List.lookup_cons, beq_false_of_ne h]
  | cons hd tl ih =>
    obtain ⟨k₁, v₁⟩ := hd
    simp only [List.cons_append, List.lookup_cons, ih]

theorem lookup_nsSet_ne (ns : Namespace) (a : String) (v : Value) (k : String)
    (h : k ≠ a) : (nsSet ns a v).lookup k = ns.lookup k := by
  unfold nsSet
  split
  · exact lookup_map_overwrite_ne a v k h ns
  · exact lookup_append_singleton_ne a v k h ns

theorem lookup_nsUpdate_of_no_key (m : List (String × Value)) (ns : Namespace) (k : String)
    (h : ∀ kv ∈ m, k ≠ kv.1) : (nsUpdate ns m).lookup k = ns.lookup k := by
  induction m generalizing ns with
  | nil => rfl
  | cons hd tl ih =>
    unfold nsUpdate
    simp only [List.foldl_cons]
    have step := ih (nsSet ns hd.1 hd.2) (fun kv hkv => h kv (List.mem_cons_of_mem hd hkv))
    unfold nsUpdate at step
    rw [step, lookup_nsSet_ne ns hd.1 hd.2 k (h hd (List.mem_cons_self hd tl))]

theorem lookup_filter_dropped (argv : List String) (k : String)
    (h : argv.contains ("--" ++ k) = true) (cd : List (String × Value)) :
    (cd.filter (fun kv => !(argv.contains ("--" ++ kv.1)))).lookup k = none := by
  induction cd with
  | nil => rfl
  | cons hd tl ih =>
    obtain ⟨k₁, v₁⟩ := hd
    by_cases hk : k₁ = k
    · subst hk
      simp only [List.filter_cons, h, Bool.not_true, Bool.false_eq_true, if_false, ih]
    · rw [List.filter_cons]
      cases hc : (!(argv.contains ("--" ++ (k₁, v₁).1))) with
      | false => simp only [Bool.false_eq_true, if_false, ih]
      | true =>
        simp only [if_true, List.lookup_cons, beq_false_of_ne (Ne.symm hk), ih]

theorem lookup_filter_kept (argv : List String) (k : String)
    (h : argv.contains ("--" ++ k) = false) (cd : List (String × Value)) :
    (cd.filter (fun kv => !(argv.contains ("--" ++ kv.1)))).lookup k = cd.lookup k := by
  induction cd with
  | nil => rfl
  | cons hd tl ih =>
    obtain ⟨k₁, v₁⟩ := hd
    by_cases hk : k₁ = k
    · subst hk
      simp only [List.filter_cons, h, Bool.not_false, if_true, List.lookup_cons,
        beq_self_eq_true, ih]
    · rw [List.filter_cons]
      cases hc : (!(argv.contains ("--" ++ (k₁, v₁).1))) with
      | false =>
        simp only [Bool.false_eq_true, if_false, ih, List.lookup_cons,
          beq_false_of_ne (Ne.symm hk)]
      | true =>
        simp only [if_true, List.lookup_cons, beq_false_of_ne (Ne.symm hk), ih]

/-- C6: at the moment the resolution pass runs, the resolved namespace
has exactly the keys of the raw namespace, in the same order; the
resolver never introduces a key. -/
theorem resolved_args_keys_eq (read : String → Value) (ns : Namespace) :
    (Inputs.resolved_args read ns).map Prod.fst = ns.map Prod.fst := by
  unfold Inputs.resolved_args
  induction ns with
  | nil => rfl
  | cons hd tl ih =>
    simp only [List.map_cons, ih, List.cons.injEq, and_true]
    split
    · rfl
    · cases hd.2 <;> rfl

/-- C10: `Inputs.config` with preserve set mutates the caller-supplied
dict in place: after the call, every key whose exact two-dash flag form
is an element of the argument list is gone from the caller's dict, and
every other key keeps its binding. -/
theorem config_mutates_caller_dict (argv : List String) (ns : Namespace)
    (cd : List (String × Value)) (k : String) :
    (argv.contains ("--" ++ k) = true →
      ((Inputs.config argv ns cd true).2).lookup k = none)
    ∧ (argv.contains ("--" ++ k) = false →
      ((Inputs.config argv ns cd true).2).lookup k = cd.lookup k) := by
  constructor
  · intro h
    exact lookup_filter_dropped argv k h cd
  · intro h
    exact lookup_filter_kept argv k h cd

theorem config_mutates_caller_dict_witness :
    (["--owner"].contains ("--" ++ "owner") = true)
    ∧ ((Inputs.config ["--owner"] []
        [("owner", Value.str "Beta"), ("x", Value.null)] true).2).lookup "owner" = none
    ∧ (["--owner"].contains ("--" ++ "x") = false)
    ∧ ((Inputs.config ["--owner"] []
        [("owner", Value.str "Beta"), ("x", Value.null)] true).2).lookup "x"
      = some Value.null :=
  ⟨rfl,
    (config_mutates_caller_dict ["--owner"] []
      [("owner", Value.str "Beta"), ("x", Value.null)] "owner").1 rfl,
    rfl,
    ((config_mutates_caller_dict ["--owner"] []
      [("owner", Value.str "Beta"), ("x", Value.null)] "x").2 rfl).trans rfl⟩

/-- C1 (amended): a key is protected across any sequence of later
preserve merges exactly when its two-dash flag form appears as a
standalone element of the argument list (the two-token CLI form); such
keys keep the value the namespace had when the CLI was parsed. -/
theorem configSeq_preserves_exact_cli_flag (argv : List String) (ns : Namespace)
    (cds : List (List (String × Value))) (k : String)
    (h : argv.contains ("--" ++ k) = true) :
    (Inputs.configSeq argv ns cds).lookup k = ns.lookup k := by
  induction cds generalizing ns with
  | nil => rfl
  | cons cd tl ih =>
    unfold Inputs.configSeq
    simp only [List.foldl_cons]
    have hstep :
        (Inputs.config argv ns cd true).1
          = nsUpdate ns (cd.filter (fun kv => !(argv.contains ("--" ++ kv.1)))) := rfl
    have htl := ih (nsUpdate ns (cd.filter (fun kv => !(argv.contains ("--" ++ kv.1)))))
    unfold Inputs.configSeq at htl
    rw [hstep, htl]
    refine lookup_nsUpdate_of_no_key _ ns k ?_
    intro kv hkv heq
    have hp := (List.mem_filter.mp hkv).2
    rw [← heq] at hp
    rw [h] at hp
    exact absurd hp (by simp)

theorem configSeq_preserves_exact_cli_flag_witness :
    (["--owner"].contains ("--" ++ "owner") = true)
    ∧ (Inputs.configSeq ["--owner"] [("owner", Value.str "Acme")]
        [[("owner", Value.str "Beta")], [("owner", Value.str "Gamma")]]).lookup "owner"
      = some (Value.str "Acme") :=
  ⟨rfl,
    (configSeq_preserves_exact_cli_flag ["--owner"] [("owner", Value.str "Acme")]
      [[("owner", Value.str "Beta")], [("owner", Value.str "Gamma")]] "owner" rfl).trans rfl⟩

/-- C1 counterexample: the key owner is supplied on the CLI in the
single-token equals form, yet one later preserve merge overwrites it,
because the preserve check looks for the exact two-dash element only. -/
theorem config_preserve_equals_form_cex :
    specKeySuppliedOnCli ["--owner=Acme"] "owner" = true
    ∧ (Inputs.config ["--owner=Acme"] [("owner", Value.str "Acme")]
        [("owner", Value.str "Beta")] true).1.lookup "owner" = some (Value.str "Beta")
    ∧ (Inputs.config ["--owner=Acme"] [("owner", Value.str "Acme")]
        [("owner", Value.str "Beta")] true).1.lookup "owner" ≠ some (Value.str "Acme") := by
  refine ⟨rfl, rfl, fun h => ?_⟩
  have h2 : some (Value.str "Beta") = some (Value.str "Acme") := h
  exact absurd (Option.some.inj h2) (by simp)

theorem update_params_coerce_eq (ij : InstallJson) (arg : String) (value : Value) :
    Inputs.update_params_coerce ij arg value =
      if isMultiChoiceParam ij arg then
        (if !(match value with | .dict _ => true | _ => false) then
          pyValueSplit ij.list_delimiter value
        else .ok value)
      else if pyLower ((ij.params_dict.lookup arg).getD ⟨"", Value.bool false⟩).ptype
          == "boolean" then .ok (.bool (to_bool value))
      else if tc_bool_args.contains arg then .ok (.bool (to_bool value))
      else .ok value := rfl

theorem coerce_multi_dict {ij : InstallJson} {arg : String}
    (h : isMultiChoiceParam ij arg = true) (d : List (String × Value)) :
    Inputs.update_params_coerce ij arg (Value.dict d) = Except.ok (Value.dict d) := by
  rw [update_params_coerce_eq, if_pos h]
  rfl

theorem coerce_multi_str {ij : InstallJson} {arg : String}
    (h : isMultiChoiceParam ij arg = true) (s : String) :
    Inputs.update_params_coerce ij arg (Value.str s)
      = Except.ok (Value.list ((pyStrSplit s ij.list_delimiter).map Value.str)) := by
  rw [update_params_coerce_eq, if_pos h]
  rfl

theorem coerce_multi_list {ij : InstallJson} {arg : String}
    (h : isMultiChoiceParam ij arg = true) (xs : List Value) :
    Inputs.update_params_coerce ij arg (Value.list xs)
      = Except.error (attrErrNoSplit "list") := by
  rw [update_params_coerce_eq, if_pos h]
  rfl

theorem coerce_not_multi_bool {ij : InstallJson} {arg : String}
    (hm : isMultiChoiceParam ij arg = false)
    (hb : (pyLower ((ij.params_dict.lookup arg).getD ⟨"", Value.bool false⟩).ptype
      == "boolean") = true) (v : Value) :
    Inputs.update_params_coerce ij arg v = Except.ok (Value.bool (to_bool v)) := by
  rw [update_params_coerce_eq, if_neg (by simp [hm]), if_pos hb]

theorem coerce_not_multi_tcbool {ij : InstallJson} {arg : String}
    (hm : isMultiChoiceParam ij arg = false)
    (hb : ¬(pyLower ((ij.params_dict.lookup arg).getD ⟨"", Value.bool false⟩).ptype
      == "boolean") = true)
    (hc : tc_bool_args.contains arg = true) (v : Value) :
    Inputs.update_params_coerce ij arg v = Except.ok (Value.bool (to_bool v)) := by
  rw [update_params_coerce_eq, if_neg (by simp [hm]), if_neg hb, if_pos hc]

theorem coerce_passthrough {ij : InstallJson} {arg : String}
    (hm : isMultiChoiceParam ij arg = false)
    (hb : ¬(pyLower ((ij.params_dict.lookup arg).getD ⟨"", Value.bool false⟩).ptype
      == "boolean") = true)
    (hc : ¬tc_bool_args.contains arg = true) (v : Value) :
    Inputs.update_params_coerce ij arg v = Except.ok v := by
  rw [update_params_coerce_eq, if_neg (by simp [hm]), if_neg hb, if_neg hc]

/-- C2 (amended): the per-key coercion is idempotent for every
non-MultiChoice parameter and for dict values, but re-coercing the list
produced for a MultiChoice/allowMultiple parameter from a raw string
raises an AttributeError, because the no-resplit guard tests for dict,
not for a sequence. -/
theorem update_params_coerce_idempotence (ij : InstallJson) (arg : String) (v : Value) :
    (isMultiChoiceParam ij arg = false →
      (Inputs.update_params_coerce ij arg v).bind (Inputs.update_params_coerce ij arg)
        = Inputs.update_params_coerce ij arg v)
    ∧ (∀ d, (Inputs.update_params_coerce ij arg (Value.dict d)).bind
        (Inputs.update_params_coerce ij arg)
        = Inputs.update_params_coerce ij arg (Value.dict d))
    ∧ (isMultiChoiceParam ij arg = true → ∀ s,
      (Inputs.update_params_coerce ij arg (Value.str s)).bind
        (Inputs.update_params_coerce ij arg)
        = Except.error (attrErrNoSplit "list")) := by
  refine ⟨?_, ?_, ?_⟩
  · intro hm
    by_cases hb : (pyLower ((ij.params_dict.lookup arg).getD ⟨"", Value.bool false⟩).ptype
        == "boolean") = true
    · rw [coerce_not_multi_bool hm hb v]
      show Inputs.update_params_coerce ij arg (Value.bool (to_bool v))
        = Except.ok (Value.bool (to_bool v))
      exact coerce_not_multi_bool hm hb (Value.bool (to_bool v))
    · by_cases hc : tc_bool_args.contains arg = true
      · rw [coerce_not_multi_tcbool hm hb hc v]
        show Inputs.update_params_coerce ij arg (Value.bool (to_bool v))
          = Except.ok (Value.bool (to_bool v))
        exact coerce_not_multi_tcbool hm hb hc (Value.bool (to_bool v))
      · rw [coerce_passthrough hm hb hc v]
        show Inputs.update_params_coerce ij arg v = Except.ok v
        exact coerce_passthrough hm hb hc v
  · intro d
    by_cases hm : isMultiChoiceParam ij arg = true
    · rw [coerce_multi_dict hm d]
      show Inputs.update_params_coerce ij arg (Value.dict d) = Except.ok (Value.dict d)
      exact coerce_multi_dict hm d
    · have hm' : isMultiChoiceParam ij arg = false := by
        cases h : isMultiChoiceParam ij arg
        · rfl
        · exact absurd h hm
      by_cases hb : (pyLower ((ij.params_dict.lookup arg).getD ⟨"", Value.bool false⟩).ptype
          == "boolean") = true
      · rw [coerce_not_multi_bool hm' hb (Value.dict d)]
        show Inputs.update_params_coerce ij arg (Value.bool (to_bool (Value.dict d)))
          = Except.ok (Value.bool (to_bool (Value.dict d)))
        exact coerce_not_multi_bool hm' hb (Value.bool (to_bool (Value.dict d)))
      · by_cases hc : tc_bool_args.contains arg = true
        · rw [coerce_not_multi_tcbool hm' hb hc (Value.dict d)]
          show Inputs.update_params_coerce ij arg (Value.bool (to_bool (Value.dict d)))
            = Except.ok (Value.bool (to_bool (Value.dict d)))
          exact coerce_not_multi_tcbool hm' hb hc (Value.bool (to_bool (Value.dict d)))
        · rw [coerce_passthrough hm' hb hc (Value.dict d)]
          show Inputs.update_params_coerce ij arg (Value.dict d)
            = Except.ok (Value.dict d)
          exact coerce_passthrough hm' hb hc (Value.dict d)
  · intro hm s
    rw [coerce_multi_str hm s]
    show Inputs.update_params_coerce ij arg
        (Value.list ((pyStrSplit s ij.list_delimiter).map Value.str))
      = Except.error (attrErrNoSplit "list")
    exact coerce_multi_list hm _

theorem update_params_coerce_idempotence_witness :
    isMultiChoiceParam ijBool "debug_mode" = false
    ∧ (Inputs.update_params_coerce ijBool "debug_mode" (Value.str "true")).bind
        (Inputs.update_params_coerce ijBool "debug_mode")
      = Inputs.update_params_coerce ijBool "debug_mode" (Value.str "true")
    ∧ isMultiChoiceParam ijMulti "tags" = true
    ∧ (Inputs.update_params_coerce ijMulti "tags" (Value.str "a,b,c")).bind
        (Inputs.update_params_coerce ijMulti "tags")
      = Except.error (attrErrNoSplit "list") :=
  ⟨rfl,
    (update_params_coerce_idempotence ijBool "debug_mode" (Value.str "true")).1 rfl,
    rfl,
    (update_params_coerce_idempotence ijMulti "tags" (Value.str "a,b,c")).2.2 rfl "a,b,c"⟩

/-- C2 counterexample: for the MultiChoice parameter tags, one coercion
of the raw string turns it into a list, and coercing that result again
does not return it unchanged but raises, so applying the coercion twice
differs from applying it once. -/
theorem update_params_coerce_idempotence_cex :
    (Inputs.update_params_coerce ijMulti "tags" (Value.str "a,b")).bind
        (Inputs.update_params_coerce ijMulti "tags")
      ≠ Inputs.update_params_coerce ijMulti "tags" (Value.str "a,b")
    ∧ (Inputs.update_params_coerce ijMulti "tags" (Value.str "a,b")).bind
        (Inputs.update_params_coerce ijMulti "tags")
      = Except.error (attrErrNoSplit "list")
    ∧ Inputs.update_params_coerce ijMulti "tags" (Value.str "a,b")
      = Except.ok (Value.list [Value.str "a", Value.str "b"]) := by
  refine ⟨fun h => ?_, rfl, rfl⟩
  have h2 : (Except.error (attrErrNoSplit "list") : Except String Value)
      = Except.ok (Value.list [Value.str "a", Value.str "b"]) := h
  exact Except.noConfusion h2

/-- C3 (amended): for a MultiChoice/allowMultiple parameter the raw
string value is split on the configured delimiter into a list of
strings, and a dict value is left unchanged; but a value that is
already a list is not left unchanged — the guard tests for dict, so
the coercion raises an AttributeError on it. -/
theorem update_params_multichoice_split (ij : InstallJson) (arg : String)
    (h : isMultiChoiceParam ij arg = true) :
    (∀ s, Inputs.update_params_coerce ij arg (Value.str s)
      = Except.ok (Value.list ((pyStrSplit s ij.list_delimiter).map Value.str)))
    ∧ (∀ d, Inputs.update_params_coerce ij arg (Value.dict d) = Except.ok (Value.dict d))
    ∧ (∀ xs, Inputs.update_params_coerce ij arg (Value.list xs)
      = Except.error (attrErrNoSplit "list")) :=
  ⟨fun s => coerce_multi_str h s, fun d => coerce_multi_dict h d,
    fun xs => coerce_multi_list h xs⟩

theorem update_params_multichoice_split_witness :
    isMultiChoiceParam ijMulti "tags" = true
    ∧ Inputs.update_params_coerce ijMulti "tags" (Value.str "a,b,c")
      = Except.ok (Value.list [Value.str "a", Value.str "b", Value.str "c"]) :=
  ⟨rfl, ((update_params_multichoice_split ijMulti "tags" rfl).1 "a,b,c").trans rfl⟩

/-- C3 counterexample: a value that is already a list is not left
unchanged by the MultiChoice coercion; it raises an AttributeError
instead. -/
theorem update_params_multichoice_cex :
    Inputs.update_params_coerce ijMulti "tags" (Value.list [Value.str "a", Value.str "b"])
      = Except.error (attrErrNoSplit "list")
    ∧ Inputs.update_params_coerce ijMulti "tags" (Value.list [Value.str "a", Value.str "b"])
      ≠ Except.ok (Value.list [Value.str "a", Value.str "b"]) := by
  refine ⟨rfl, fun h => ?_⟩
  have h2 : (Except.error (attrErrNoSplit "list") : Except String Value)
      = Except.ok (Value.list [Value.str "a", Value.str "b"]) := h
  exact Except.noConfusion h2

/-- C4 (amended): the config-file loader returns an empty dict when no
filename is given or the file is missing (the error is only logged),
but a present file whose contents fail to decode raises the JSON decode
error to the caller — it is not swallowed. -/
theorem config_file_missing_and_malformed (fs : String → Option String)
    (parseJson : String → Option Value) (f : String) :
    (fs f = none → Inputs.config_file fs parseJson (some f) = Except.ok (Value.dict []))
    ∧ (∀ c, fs f = some c → parseJson c = none →
      Inputs.config_file fs parseJson (some f)
        = Except.error "json.decoder.JSONDecodeError: Expecting value")
    ∧ Inputs.config_file fs parseJson none = Except.ok (Value.dict []) := by
  refine ⟨?_, ?_, rfl⟩
  · intro h
    show (match fs f with
      | some contents =>
        match parseJson contents with
        | some data => Except.ok data
        | none => Except.error "json.decoder.JSONDecodeError: Expecting value"
      | none => Except.ok (Value.dict [])) = Except.ok (Value.dict [])
    rw [h]
  · intro c hc hp
    show (match fs f with
      | some contents =>
        match parseJson contents with
        | some data => Except.ok data
        | none => Except.error "json.decoder.JSONDecodeError: Expecting value"
      | none => Except.ok (Value.dict []))
      = Except.error "json.decoder.JSONDecodeError: Expecting value"
    rw [hc]
    show (match parseJson c with
      | some data => Except.ok data
      | none => Except.error "json.decoder.JSONDecodeError: Expecting value")
      = Except.error "json.decoder.JSONDecodeError: Expecting value"
    rw [hp]

theorem config_file_missing_and_malformed_witness :
    fsBad "missing.json" = none
    ∧ Inputs.config_file fsBad parseJsonNone (some "missing.json") = Except.ok (Value.dict [])
    ∧ fsBad "app_config.json" = some "not json"
    ∧ parseJsonNone "not json" = none
    ∧ Inputs.config_file fsBad parseJsonNone (some "app_config.json")
      = Except.error "json.decoder.JSONDecodeError: Expecting value" :=
  ⟨rfl,
    (config_file_missing_and_malformed fsBad parseJsonNone "missing.json").1 rfl,
    rfl, rfl,
    (config_file_missing_and_malformed fsBad parseJsonNone "app_config.json").2.1
      "not json" rfl rfl⟩

/-- C4 counterexample: a present config file with malformed contents
makes the loader raise the decode error instead of returning the empty
dict the claim promises. -/
theorem config_file_malformed_cex :
    Inputs.config_file fsBad parseJsonNone (some "app_config.json")
      = Except.error "json.decoder.JSONDecodeError: Expecting value"
    ∧ Inputs.config_file fsBad parseJsonNone (some "app_config.json")
      ≠ Except.ok (Value.dict []) := by
  refine ⟨rfl, fun h => ?_⟩
  have h2 : (Except.error "json.decoder.JSONDecodeError: Expecting value" : Except String Value)
      = Except.ok (Value.dict []) := h
  exact Except.noConfusion h2

theorem dropPrefixChars_self_append (p s : List Char) :
    dropPrefixChars p (p ++ s) = some s := by
  induction p with
  | nil => rfl
  | cons c ps ih =>
    simp only [List.cons_append, dropPrefixChars, beq_self_eq_true, if_true,
      List.append_eq, ih]

theorem pyReMatchTailCapture_prefix_no_nl (p rest : List Char)
    (h : rest.contains '\n' = false) :
    pyReMatchTailCapture p (p ++ rest) = some rest := by
  rw [pyReMatchTailCapture, dropPrefixChars_self_append]
  show (if rest.contains '\n' then
      (if rest.getLast? == some '\n' && !(rest.dropLast.contains '\n') then
        some rest.dropLast
      else none)
    else some rest) = some rest
  rw [h]
  rfl

/-- C9: a value built from the env prefix and a key resolves to the
environment variable named by the key when it is set and to the
original literal when it is not; the same holds for the envs prefix;
and a value matching neither pattern is returned unchanged. -/
theorem resolve_env_args_env_indirection (envGet : String → Option String) (k : String)
    (hk : k.data.contains '\n' = false) :
    TestCase.resolve_env_args envGet ("$env." ++ k) = (envGet k).getD ("$env." ++ k)
    ∧ TestCase.resolve_env_args envGet ("$envs." ++ k) = (envGet k).getD ("$envs." ++ k)
    ∧ (∀ v : String, dropPrefixChars "$env.".data v.data = none →
      dropPrefixChars "$envs.".data v.data = none →
      TestCase.resolve_env_args envGet v = v) := by
  refine ⟨?_, ?_, ?_⟩
  · have h1 : ("$env." ++ k).data = "$env.".data ++ k.data := String.data_append _ _
    unfold TestCase.resolve_env_args
    rw [h1, pyReMatchTailCapture_prefix_no_nl _ _ hk]
  · have h2 : ("$envs." ++ k).data = "$envs.".data ++ k.data := String.data_append _ _
    unfold TestCase.resolve_env_args
    rw [h2]
    have hno : pyReMatchTailCapture "$env.".data ("$envs.".data ++ k.data) = none := by
      unfold pyReMatchTailCapture
      rw [show dropPrefixChars "$env.".data ("$envs.".data ++ k.data) = none from rfl]
    rw [hno, pyReMatchTailCapture_prefix_no_nl _ _ hk]
  · intro v h1 h2
    unfold TestCase.resolve_env_args pyReMatchTailCapture
    rw [h1, h2]

theorem resolve_env_args_env_indirection_witness :
    ("API_KEY".data.contains '\n' = false)
    ∧ TestCase.resolve_env_args envGetW ("$env." ++ "API_KEY") = "xyz"
    ∧ TestCase.resolve_env_args envGetW ("$env." ++ "MISSING") = "$env." ++ "MISSING"
    ∧ TestCase.resolve_env_args envGetW ("$envs." ++ "API_KEY") = "xyz"
    ∧ TestCase.resolve_env_args envGetW "plain_value" = "plain_value" :=
  ⟨rfl,
    ((resolve_env_args_env_indirection envGetW "API_KEY" rfl).1).trans rfl,
    ((resolve_env_args_env_indirection envGetW "MISSING" rfl).1).trans rfl,
    ((resolve_env_args_env_indirection envGetW "API_KEY" rfl).2.1).trans rfl,
    (resolve_env_args_env_indirection envGetW "x" rfl).2.2 "plain_value" rfl rfl⟩

theorem get_secure_params_err (r : Response)
    (hbad : r.ok = false ∨ secureShapeBad r.body = true) :
    Inputs._get_secure_params r = Except.error (secureParamsErr r) := by
  rcases hbad with hok | hshape
  · unfold Inputs._get_secure_params
    rw [hok]
    rfl
  · cases hok : r.ok with
    | false =>
      unfold Inputs._get_secure_params
      rw [hok]
      rfl
    | true =>
      unfold Inputs._get_secure_params
      rw [hok]
      show (match r.body with
        | none => Except.error (secureParamsErr r)
        | some j =>
          match pyGetItem j "inputs" with
          | .ok v => Except.ok v
          | .error _ => Except.error (secureParamsErr r)) = Except.error (secureParamsErr r)
      cases hbody : r.body with
      | none => rfl
      | some j =>
        rw [hbody] at hshape
        show (match pyGetItem j "inputs" with
          | .ok v => Except.ok v
          | .error _ => Except.error (secureParamsErr r)) = Except.error (secureParamsErr r)
        cases hitem : pyGetItem j "inputs" with
        | ok v =>
          simp only [secureShapeBad, hitem] at hshape
          exact Bool.noConfusion hshape
        | error e => rfl

/-- C5: when the secure-params flag is set and the remote service
answers with a non-success status or a body without the expected inputs
shape, the loader raises the fatal error whose message carries the
response body or reason, and the whole initialization run propagates
that error — no final namespace is produced. -/
theorem secure_params_failure_fatal (env : InitEnv) (ns1 ns2 : Namespace)
    (aotEv : List Event) (secFlag : Value)
    (hloc : Inputs.localPhase env = .ok ns1)
    (haot : Inputs.aotPhase env ns1 = (.ok ns2, aotEv))
    (hflag : ns2.lookup "tc_secure_params" = some secFlag)
    (htru : pyTruthy secFlag = true)
    (hbad : env.secureResponse.ok = false ∨ secureShapeBad env.secureResponse.body = true) :
    Inputs._get_secure_params env.secureResponse
      = Except.error (secureParamsErr env.secureResponse)
    ∧ (Inputs.initRun env).1 = Except.error (secureParamsErr env.secureResponse) := by
  have hget := get_secure_params_err env.secureResponse hbad
  refine ⟨hget, ?_⟩
  have hsec : Inputs.securePhase env ns2
      = (.error (secureParamsErr env.secureResponse), [Event.secureFetch]) := by
    unfold Inputs.securePhase
    rw [hflag]
    show (if pyTruthy secFlag then
        match Inputs._get_secure_params env.secureResponse with
        | .error e => ((.error e : Except String Namespace), [Event.secureFetch])
        | .ok params =>
          match Inputs.update_params env.ij params with
          | .error e => (.error e, [Event.secureFetch])
          | .ok updated =>
            (.ok (Inputs.config env.argv ns2 updated true).1,
              [Event.secureFetch, Event.registerToken])
      else (.ok ns2, []))
      = (.error (secureParamsErr env.secureResponse), [Event.secureFetch])
    rw [htru, hget]
    rfl
  unfold Inputs.initRun
  simp only [hloc, haot, hsec]

theorem secure_params_failure_fatal_witness :
    (envBadFixture.secureResponse.ok = false)
    ∧ (Inputs.initRun envBadFixture).1
      = Except.error "Error retrieving secure params from API (Internal Server Error)." :=
  ⟨rfl,
    ((secure_params_failure_fatal envBadFixture nsFixture nsFixture [] (Value.bool true)
      rfl rfl rfl rfl (Or.inl rfl)).2).trans rfl⟩

theorem initRun_trace_shape (env : InitEnv) :
    (Inputs.initRun env).2 = [Event.configFileLoad]
    ∨ ∃ rest, (Inputs.initRun env).2
      = Event.configFileLoad :: Event.cliParse :: Event.resultsTc
        :: Event.registerToken :: rest := by
  unfold Inputs.initRun
  cases hl : Inputs.localPhase env with
  | error e => left; rfl
  | ok ns1 =>
    right
    rcases haot : Inputs.aotPhase env ns1 with ⟨ra, ev⟩
    cases ra with
    | error e => exact ⟨ev, by simp [haot]⟩
    | ok ns2 =>
      rcases hsec : Inputs.securePhase env ns2 with ⟨rs, ev2⟩
      cases rs with
      | error e => exact ⟨ev ++ ev2, by simp [haot, hsec]⟩
      | ok ns3 => exact ⟨ev ++ ev2 ++ [Event.updateLogging], by simp [haot, hsec]⟩

/-- C7: wherever an execution of the AOT loader or of the secure-params
loader appears in the initialization trace, a registration attempt
(a `register_token` call) appears strictly earlier, so neither external
loader ever runs before token registration has been attempted. -/
theorem register_token_before_loaders (env : InitEnv) (i : Nat)
    (h : (Inputs.initRun env).2.get? i = some Event.aotFetch
      ∨ (Inputs.initRun env).2.get? i = some Event.secureFetch) :
    ∃ j, j < i ∧ (Inputs.initRun env).2.get? j = some Event.registerToken := by
  rcases initRun_trace_shape env with h1 | ⟨rest, h2⟩
  · rw [h1] at h
    rcases i with _ | i
    · rcases h with h | h <;> exact absurd h (by simp)
    · rcases h with h | h <;> exact absurd h (by simp)
  · rw [h2] at h ⊢
    rcases i with _ | (_ | (_ | (_ | i)))
    · rcases h with h | h <;> exact absurd h (by simp)
    · rcases h with h | h <;> exact absurd h (by simp)
    · rcases h with h | h <;> exact absurd h (by simp)
    · rcases h with h | h <;> exact absurd h (by simp)
    · exact ⟨3, by omega, rfl⟩

theorem register_token_before_loaders_witness :
    ((Inputs.initRun envOkFixture).2.get? 4 = some Event.aotFetch
      ∨ (Inputs.initRun envOkFixture).2.get? 4 = some Event.secureFetch)
    ∧ ∃ j, j < 4 ∧ (Inputs.initRun envOkFixture).2.get? j = some Event.registerToken :=
  ⟨Or.inr rfl, register_token_before_loaders envOkFixture 4 (Or.inr rfl)⟩

theorem expectChar_some {c : Char} {s r : List Char} (h : expectChar c s = some r) :
    s = c :: r := by
  cases s with
  | nil => exact absurd h (by simp [expectChar])
  | cons x t =>
    replace h : (if (x == c) = true then some t else none) = some r := h
    by_cases hx : (x == c) = true
    · rw [if_pos hx] at h
      rw [beq_iff_eq.mp hx, Option.some.inj h]
    · rw [if_neg hx] at h
      exact absurd h (by simp)

theorem parseRun_some {p : Char → Bool} {s tk rest : List Char}
    (h : parseRun p s = some (tk, rest)) :
    s = tk ++ rest ∧ tk ≠ [] ∧ ∀ c ∈ tk, p c = true := by
  replace h : (if ((s.span p).1).isEmpty = true then none
      else some ((s.span p).1, (s.span p).2)) = some (tk, rest) := h
  simp only [List.span_eq_take_drop] at h
  split at h
  · exact absurd h (by simp)
  · rename_i hne
    have hp := Option.some.inj h
    have htk : tk = s.takeWhile p := (congrArg Prod.fst hp).symm
    have hrest : rest = s.dropWhile p := (congrArg Prod.snd hp).symm
    subst htk
    subst hrest
    refine ⟨(List.takeWhile_append_dropWhile p s).symm, ?_,
      fun c hc => List.mem_takeWhile_imp hc⟩
    intro hnil
    rw [hnil] at hne
    exact hne rfl

theorem isCustomTypeChar_not_ws (c : Char) (h : isCustomTypeChar c = true) :
    isPyWs c = false := by
  cases hw : isPyWs c
  · rfl
  · exfalso
    simp only [isPyWs, Bool.or_eq_true, beq_iff_eq] at hw
    rcases hw with ((((rfl | rfl) | rfl) | rfl) | rfl) | rfl <;> exact absurd h (by decide)

theorem parseVariableType_some {r : List Char} {ty : String}
    (h : parseVariableType r = some ty) :
    r ≠ [] ∧ ∀ c ∈ r, isPyWs c = false := by
  replace h : (if fixedVariableTypes.contains (String.mk r) = true then some (String.mk r)
      else if (!r.isEmpty && r.all isCustomTypeChar
          && customTypeExclusions.all (fun p => !(p.data.isPrefixOf r))) = true then
        some (String.mk r)
      else none) = some ty := h
  split at h
  · rename_i hfix
    have hmem : String.mk r ∈ fixedVariableTypes := List.elem_iff.mp hfix
    simp only [fixedVariableTypes, List.mem_cons, List.not_mem_nil, or_false] at hmem
    rcases hmem with hm | hm | hm | hm | hm | hm | hm | hm | hm | hm <;>
      rw [show r = _ from congrArg String.data hm] <;>
      exact ⟨by decide, by decide⟩
  · split at h
    · rename_i hcust
      simp only [Bool.and_eq_true] at hcust
      obtain ⟨⟨hne, hall⟩, hexc⟩ := hcust
      constructor
      · intro hnil
        subst hnil
        exact absurd hne (by decide)
      · intro c hc
        exact isCustomTypeChar_not_ws c (List.all_eq_true.mp hall c hc)
    · exact absurd h (by simp)

theorem dropWhile_eq_self_of_head (p : Char → Bool) (c : Char) (l : List Char)
    (hc : p c = false) : (c :: l).dropWhile p = c :: l := by
  rw [List.dropWhile_cons, hc]
  rfl

theorem stripChars_id_of (c : Char) (m : List Char) (a : Char)
    (hc : isPyWs c = false) (ha : isPyWs a = false) :
    stripChars (c :: (m ++ [a])) = c :: (m ++ [a]) := by
  unfold stripChars
  rw [dropWhile_eq_self_of_head _ _ _ hc]
  rw [show (c :: (m ++ [a])) = ((c :: m) ++ [a]) from rfl]
  rw [List.reverse_append, List.reverse_singleton, List.singleton_append]
  rw [dropWhile_eq_self_of_head _ _ _ ha]
  rw [List.reverse_cons, List.reverse_reverse]

theorem parseVariable_strip_id {l : List Char} {tok : VariableToken}
    (h : parseVariable l = some tok) : stripChars l = l := by
  unfold parseVariable at h
  rw [Option.bind_eq_some] at h
  obtain ⟨r0, h0, h⟩ := h
  rw [Option.bind_eq_some] at h
  obtain ⟨⟨nsChars, r1⟩, h1, h⟩ := h
  replace h : (expectChar ':' r1).bind (fun r2 =>
      (parseRun isVarDigit r2).bind fun g2 =>
      match g2 with
      | (idChars, r3) =>
        (expectChar ':' r3).bind fun r4 =>
        (parseRun isVarNameChar r4).bind fun g3 =>
        match g3 with
        | (nameChars, r5) =>
          (expectChar '!' r5).bind fun r6 =>
          (parseVariableType r6).bind fun ty =>
          some ⟨String.mk nsChars, String.mk idChars, String.mk nameChars, ty⟩)
      = some tok := h
  rw [Option.bind_eq_some] at h
  obtain ⟨r2, h2, h⟩ := h
  rw [Option.bind_eq_some] at h
  obtain ⟨⟨idChars, r3⟩, h3, h⟩ := h
  replace h : (expectChar ':' r3).bind (fun r4 =>
      (parseRun isVarNameChar r4).bind fun g3 =>
      match g3 with
      | (nameChars, r5) =>
        (expectChar '!' r5).bind fun r6 =>
        (parseVariableType r6).bind fun ty =>
        some ⟨String.mk nsChars, String.mk idChars, String.mk nameChars, ty⟩)
      = some tok := h
  rw [Option.bind_eq_some] at h
  obtain ⟨r4, h4, h⟩ := h
  rw [Option.bind_eq_some] at h
  obtain ⟨⟨nameChars, r5⟩, h5, h⟩ := h
  replace h : (expectChar '!' r5).bind (fun r6 =>
      (parseVariableType r6).bind fun ty =>
      some ⟨String.mk nsChars, String.mk idChars, String.mk nameChars, ty⟩)
      = some tok := h
  rw [Option.bind_eq_some] at h
  obtain ⟨r6, h6, h⟩ := h
  rw [Option.bind_eq_some] at h
  obtain ⟨ty, hty, h⟩ := h
  obtain ⟨hs1, hne1, hall1⟩ := parseRun_some h1
  obtain ⟨hs2, hne2, hall2⟩ := parseRun_some h3
  obtain ⟨hs3, hne3, hall3⟩ := parseRun_some h5
  obtain ⟨hne6, hall6⟩ := parseVariableType_some hty
  have hl : l = '#' :: r0 := expectChar_some h0
  subst hl
  subst hs1
  have hr1 : r1 = ':' :: r2 := expectChar_some h2
  subst hr1
  subst hs2
  have hr3 : r3 = ':' :: r4 := expectChar_some h4
  subst hr3
  subst hs3
  have hr5 : r5 = '!' :: r6 := expectChar_some h6
  subst hr5
  rcases List.eq_nil_or_concat r6 with hnil | ⟨r6x, a, hr6⟩
  · exact absurd hnil hne6
  · rw [List.concat_eq_append] at hr6
    subst hr6
    have ha : isPyWs a = false := hall6 a (by simp)
    have hform :
        '#' :: (nsChars ++ ':' :: (idChars ++ ':' :: (nameChars ++ '!' :: (r6x ++ [a]))))
        = '#' :: ((nsChars ++ ':' :: (idChars ++ ':' :: (nameChars ++ '!' :: r6x))) ++ [a]) := by
      simp [List.append_assoc]
    rw [hform]
    exact stripChars_id_of '#' _ a rfl ha

/-- C8 (amended): for every string accepted by the full anchored
variable grammar, the method-name conversion returns the dotted name
with dots replaced by underscores, lower-cased, an underscore, and the
lower-cased type; for every string whose whitespace-stripped form the
grammar rejects, it returns None rather than raising.  The conversion
strips surrounding whitespace first, so grammar acceptance of the
stripped form is what decides the outcome. -/
theorem method_name_grammar (s : String) :
    (∀ tok, parseVariable s.data = some tok →
      ValidationTemplates._method_name (some s) = some (variableMethodName tok))
    ∧ (parseVariable (pyStrip s).data = none →
      ValidationTemplates._method_name (some s) = none) := by
  constructor
  · intro tok h
    have hstrip : (pyStrip s).data = s.data := parseVariable_strip_id h
    show (match parseVariable (pyStrip s).data with
      | some tok => some (variableMethodName tok)
      | none => none) = some (variableMethodName tok)
    rw [hstrip, h]
  · intro h
    show (match parseVariable (pyStrip s).data with
      | some tok => some (variableMethodName tok)
      | none => none) = none
    rw [h]

theorem method_name_grammar_witness :
    parseVariable "#App:9876:http.content!Binary".data
      = some ⟨"App", "9876", "http.content", "Binary"⟩
    ∧ ValidationTemplates._method_name (some "#App:9876:http.content!Binary")
      = some "http_content_binary"
    ∧ parseVariable (pyStrip "#foo").data = none
    ∧ ValidationTemplates._method_name (some "#foo") = none :=
  ⟨rfl,
    ((method_name_grammar "#App:9876:http.content!Binary").1
      ⟨"App", "9876", "http.content", "Binary"⟩ rfl).trans rfl,
    rfl,
    (method_name_grammar "#foo").2 rfl⟩

/-- C8 counterexample: a string with a leading space does not match the
full grammar, yet the conversion does not return None for it — the
conversion strips the whitespace first and yields the method name. -/
theorem method_name_strip_cex :
    parseVariable " #App:9876:http.content!Binary".data = none
    ∧ ValidationTemplates._method_name (some " #App:9876:http.content!Binary")
      = some "http_content_binary"
    ∧ ValidationTemplates._method_name (some " #App:9876:http.content!Binary") ≠ none := by
  refine ⟨rfl, rfl, fun h => ?_⟩
  have h2 : (some "http_content_binary" : Option String) = none := h
  exact Option.noConfusion h2
